import Mathlib

/-!
Verification of the CLIP embedding HTTP service
(`src/pepe-tg/embedding-service/{embedding.py, main.py, models.py}`).

Shallow embedding conventions:
* Real-valued vectors (`List ℝ`) stand for the floating-point numpy arrays;
  arithmetic is exact real arithmetic.
* The external OpenCLIP encoder is modelled by an `Encoder` record producing
  raw (un-normalized) 512-dimensional feature vectors, per the model's
  `embedding_dim = 512` contract.
* Raised Python exceptions become `Except String`; `HTTPException(status, detail)`
  becomes `Except (Nat × String)` at the HTTP layer.
* Side effects that the claims talk about (reading the uploaded file, invoking
  the encoder) are made visible as an explicit `Event` trace returned alongside
  the result.
* `datetime.now()` is modelled by a `now : Nat` timestamp parameter; wall-clock
  timing fields (`processing_time_ms`, `total_time_ms`) are not modelled.
-/

noncomputable section

namespace EmbeddingSvc

/-- Squared Euclidean norm of a vector (sum of squares). -/
def normSq (v : List ℝ) : ℝ := (v.map (fun x => x ^ 2)).sum

/-- Euclidean norm, `np.linalg.norm` / `tensor.norm`. -/
def l2norm (v : List ℝ) : ℝ := Real.sqrt (normSq v)

/-- `features / features.norm(dim=-1, keepdim=True)`: divide every component
by the Euclidean norm (embedding.py lines 110-112 and 148-150). -/
def normalize (v : List ℝ) : List ℝ := v.map (fun x => x / l2norm v)

/-- The external OpenCLIP ViT-B/32 model: maps text / image bytes to raw
512-dimensional feature vectors (`embedding_dim = 512` in embedding.py). -/
structure Encoder where
  encodeTextRaw : String → List ℝ
  encodeImageRaw : List Nat → List ℝ
  text_dim : ∀ t, (encodeTextRaw t).length = 512
  image_dim : ∀ b, (encodeImageRaw b).length = 512

/-- State of `EmbeddingService` (embedding.py): `model` is `None` until
`_load_model` succeeds. -/
structure EmbeddingService where
  model : Option Encoder
  model_name : String := "ViT-B-32"
  pretrained : String := "laion2b_s34b_b79k"
  embedding_dim : Nat := 512

/-- `EmbeddingService.is_loaded`: the model is loaded and ready. -/
def EmbeddingService.is_loaded (s : EmbeddingService) : Bool := s.model.isSome

/-- The three prompt templates of `apply_prompt_template`. -/
inductive Template where
  | visual
  | content
  | raw

/-- `EmbeddingService.apply_prompt_template` (embedding.py lines 66-91):
pure selection of one of three fixed phrasings. -/
def apply_prompt_template (text : String) (template : Template) : String :=
  match template with
  | .visual =>
      "A digital art card featuring " ++ text ++
        ", with emphasis on visual style and composition"
  | .content =>
      "A digital art card depicting " ++ text ++
        ", focused on the subject matter and themes"
  | .raw => text

/-- Observable side effects of a request, used to state "before the file is
read / before any encoding is attempted" claims. -/
inductive Event where
  | fileRead
  | encodeTextCall
  | encodeImageCall
deriving DecidableEq

/-- `EmbeddingService.encode_text` (embedding.py lines 93-123): raise
`"Model not loaded"` when unloaded, otherwise run the encoder and normalize. -/
def encode_text (s : EmbeddingService) (text : String) :
    List Event × Except String (List ℝ) :=
  match s.model with
  | none => ([], .error "Model not loaded")
  | some enc => ([.encodeTextCall], .ok (normalize (enc.encodeTextRaw text)))

/-- `EmbeddingService.encode_image` (embedding.py lines 125-160). -/
def encode_image (s : EmbeddingService) (image_bytes : List Nat) :
    List Event × Except String (List ℝ) :=
  match s.model with
  | none => ([], .error "Model not loaded")
  | some enc => ([.encodeImageCall], .ok (normalize (enc.encodeImageRaw image_bytes)))

/-- `EmbeddingService.encode_batch_text` (embedding.py lines 162-190):
one tokenize/encode call over the whole list, each row normalized. -/
def encode_batch_text (s : EmbeddingService) (texts : List String) :
    List Event × Except String (List (List ℝ)) :=
  match s.model with
  | none => ([], .error "Model not loaded")
  | some enc =>
      ([.encodeTextCall], .ok (texts.map (fun t => normalize (enc.encodeTextRaw t))))

/-- `EmbeddingService.validate_embedding` (embedding.py lines 195-206):
`abs(np.linalg.norm(e) - 1.0) < 0.01`. -/
def validate_embedding (e : List ℝ) : Prop := |l2norm e - 1| < 0.01

end EmbeddingSvc

namespace EmbeddingSvc

/-! HTTP layer (main.py, models.py). -/

/-- `TextEmbeddingRequest` (models.py): `text` is 1-1000 chars (validated by
pydantic, reflected as hypotheses where a claim needs it), `prompt_template`
defaults to raw. -/
structure TextEmbeddingRequest where
  text : String
  prompt_template : Template := .raw

/-- `TextEmbeddingResponse` (models.py). `processing_time_ms` is wall-clock
timing and is not modelled. -/
structure TextEmbeddingResponse where
  embedding : List ℝ
  model : String
  processed_text : String

/-- `ImageEmbeddingResponse` (models.py). -/
structure ImageEmbeddingResponse where
  embedding : List ℝ
  model : String

/-- `BatchItem` (models.py): all fields optional. -/
structure BatchItem where
  text : Option String := none
  path : Option String := none
  id : Option String := none

/-- The `type` discriminator of `BatchEmbeddingRequest`. -/
inductive BatchType where
  | image
  | text

/-- `BatchEmbeddingRequest` (models.py): type plus up to 100 items
(the 100-item bound is pydantic validation, reflected as a hypothesis). -/
structure BatchEmbeddingRequest where
  type : BatchType
  items : List BatchItem

/-- `BatchEmbeddingItem` (models.py lines 92-97). -/
structure BatchEmbeddingItem where
  id : Option String
  embedding : Option (List ℝ)
  success : Bool
  error : Option String

/-- `BatchEmbeddingResponse` (models.py); `total_time_ms` not modelled. -/
structure BatchEmbeddingResponse where
  embeddings : List BatchEmbeddingItem
  total : Nat
  successful : Nat
  failed : Nat

/-- `HealthResponse` (models.py); `last_request` carries the model timestamp. -/
structure HealthResponse where
  status : String
  model_loaded : Bool
  model_name : Option String
  embedding_dim : Option Nat
  last_request : Option Nat
  total_requests : Nat

/-- Process-wide state of main.py: the singleton service plus the module
globals `request_counter` and `last_request_time`. -/
structure AppState where
  service : EmbeddingService
  request_counter : Nat
  last_request_time : Option Nat

/-- `health_check` (main.py lines 39-53): reads the state and reports it;
the body contains no assignment, so the state is returned unchanged. -/
def health_check (st : AppState) : AppState × HealthResponse :=
  let model_loaded := st.service.is_loaded
  (st,
   { status := if model_loaded then "healthy" else "degraded"
     model_loaded := model_loaded
     model_name := if model_loaded then some st.service.model_name else none
     embedding_dim := if model_loaded then some st.service.embedding_dim else none
     last_request := st.last_request_time
     total_requests := st.request_counter })

/-- `embed_text` (main.py lines 56-94): template, encode, update metrics on
success; any exception becomes HTTP 500 with the exception text appended. -/
def embed_text (st : AppState) (req : TextEmbeddingRequest) (now : Nat) :
    List Event × AppState × Except (Nat × String) TextEmbeddingResponse :=
  let processed := apply_prompt_template req.text req.prompt_template
  let er := encode_text st.service processed
  match er.2 with
  | .error e =>
      (er.1, st, .error (500, "Text embedding generation failed: " ++ e))
  | .ok emb =>
      (er.1,
       { st with
           request_counter := st.request_counter + 1
           last_request_time := some now },
       .ok { embedding := emb
             model := st.service.model_name
             processed_text := processed })

/-- `allowed_types` in `embed_image` (main.py line 106). -/
def allowed_types : List String :=
  ["image/png", "image/jpeg", "image/jpg", "image/gif"]

/-- `embed_image` (main.py lines 97-139): content-type gate first (HTTP 400,
nothing read, nothing encoded), then read the upload, encode, update metrics;
encode failure becomes HTTP 500. -/
def embed_image (st : AppState) (content_type : String) (file_bytes : List Nat)
    (now : Nat) :
    List Event × AppState × Except (Nat × String) ImageEmbeddingResponse :=
  if content_type ∈ allowed_types then
    let er := encode_image st.service file_bytes
    match er.2 with
    | .error e =>
        (Event.fileRead :: er.1, st,
         .error (500, "Image embedding generation failed: " ++ e))
    | .ok emb =>
        (Event.fileRead :: er.1,
         { st with
             request_counter := st.request_counter + 1
             last_request_time := some now },
         .ok { embedding := emb, model := st.service.model_name })
  else
    ([], st,
     .error (400, "Unsupported file type: " ++ content_type ++
       ". Allowed: PNG, JPG, GIF"))

/-- The server-side file system used by image batch items
(`open(path, 'rb').read()` in main.py); an error value is a raised `OSError`
message. -/
def FileSystem := String → Except String (List Nat)

/-- Body of the per-item `try` of `embed_batch` (main.py lines 160-186):
text items encode `item.get("text", "")`; image items require a `path`,
read it and encode the bytes. -/
def batch_item_attempt (svc : EmbeddingService) (fs : FileSystem)
    (ty : BatchType) (item : BatchItem) : List Event × Except String (List ℝ) :=
  match ty with
  | .text => encode_text svc (item.text.getD "")
  | .image =>
      match item.path with
      | none => ([], .error "Missing path for image batch item")
      | some p =>
          match fs p with
          | .error e => ([.fileRead], .error e)
          | .ok bytes =>
              let (ev, r) := encode_image svc bytes
              (Event.fileRead :: ev, r)

/-- The `for item in request.items` loop of `embed_batch` (main.py lines
158-196): one result entry per item, success entries carry the embedding,
failure entries carry the error text; counters accumulate. Returns
(events, entries, successful, failed). -/
def batchLoop (svc : EmbeddingService) (fs : FileSystem) (ty : BatchType) :
    List BatchItem → List Event × List BatchEmbeddingItem × Nat × Nat
  | [] => ([], [], 0, 0)
  | item :: rest =>
      let ar := batch_item_attempt svc fs ty item
      let rs := batchLoop svc fs ty rest
      match ar.2 with
      | .ok emb =>
          (ar.1 ++ rs.1,
           { id := item.id, embedding := some emb, success := true,
             error := none } :: rs.2.1,
           rs.2.2.1 + 1, rs.2.2.2)
      | .error e =>
          (ar.1 ++ rs.1,
           { id := item.id, embedding := none, success := false,
             error := some e } :: rs.2.1,
           rs.2.2.1, rs.2.2.2 + 1)

/-- `embed_batch` (main.py lines 142-216): run the loop, then
`request_counter += successful` and `last_request_time = now`
unconditionally; the response reports per-item entries and counts. -/
def embed_batch (st : AppState) (fs : FileSystem) (req : BatchEmbeddingRequest)
    (now : Nat) :
    List Event × AppState × Except (Nat × String) BatchEmbeddingResponse :=
  let rs := batchLoop st.service fs req.type req.items
  (rs.1,
   { st with
       request_counter := st.request_counter + rs.2.2.1
       last_request_time := some now },
   .ok { embeddings := rs.2.1
         total := req.items.length
         successful := rs.2.2.1
         failed := rs.2.2.2 })

end EmbeddingSvc

namespace EmbeddingSvc

/-! Normalization lemmas. -/

theorem normSq_nil : normSq [] = 0 := by
  simp [normSq]

theorem normSq_cons (x : ℝ) (xs : List ℝ) : normSq (x :: xs) = x ^ 2 + normSq xs := by
  simp [normSq]

theorem normSq_nonneg (v : List ℝ) : 0 ≤ normSq v := by
  induction v with
  | nil => simp [normSq_nil]
  | cons x xs ih =>
      rw [normSq_cons]
      exact add_nonneg (sq_nonneg x) ih

theorem normSq_map_div (v : List ℝ) (c : ℝ) :
    normSq (v.map (fun x => x / c)) = normSq v / c ^ 2 := by
  induction v with
  | nil => simp [normSq_nil]
  | cons x xs ih =>
      simp only [List.map_cons, normSq_cons, ih, div_pow, add_div]

theorem normSq_normalize (v : List ℝ) (h : normSq v ≠ 0) :
    normSq (normalize v) = 1 := by
  unfold normalize
  rw [normSq_map_div, l2norm, Real.sq_sqrt (normSq_nonneg v), div_self h]

theorem l2norm_normalize (v : List ℝ) (h : normSq v ≠ 0) :
    l2norm (normalize v) = 1 := by
  rw [l2norm, normSq_normalize v h, Real.sqrt_one]

theorem validate_normalize (v : List ℝ) (h : normSq v ≠ 0) :
    validate_embedding (normalize v) := by
  unfold validate_embedding
  rw [l2norm_normalize v h]
  norm_num

theorem length_normalize (v : List ℝ) : (normalize v).length = v.length := by
  simp [normalize]

/-! Concrete instances used by witnesses and counterexamples. -/

/-- A concrete raw feature vector: (1, 0, ..., 0) with 512 components. -/
def unitRaw : List ℝ := 1 :: List.replicate 511 0

theorem unitRaw_length : unitRaw.length = 512 := by
  norm_num [unitRaw]

theorem normSq_replicate_zero (n : Nat) : normSq (List.replicate n (0 : ℝ)) = 0 := by
  induction n with
  | zero => simp [normSq_nil]
  | succ k ih =>
      rw [List.replicate_succ, normSq_cons, ih]
      norm_num

theorem normSq_unitRaw : normSq unitRaw = 1 := by
  rw [unitRaw, normSq_cons, normSq_replicate_zero]
  norm_num

/-- A concrete external encoder producing `unitRaw` for every input. -/
def constEnc : Encoder where
  encodeTextRaw := fun _ => unitRaw
  encodeImageRaw := fun _ => unitRaw
  text_dim := fun _ => unitRaw_length
  image_dim := fun _ => unitRaw_length

/-- A service whose model loaded successfully. -/
def loadedSvc : EmbeddingService := { model := some constEnc }

/-- A service whose model is not loaded (`model is None`). -/
def unloadedSvc : EmbeddingService := { model := none }

/-- Fresh app state over the loaded service. -/
def loadedSt : AppState :=
  { service := loadedSvc, request_counter := 0, last_request_time := none }

/-- Fresh app state over the unloaded service. -/
def unloadedSt : AppState :=
  { service := unloadedSvc, request_counter := 0, last_request_time := none }

/-- A file system with no readable files. -/
def emptyFs : FileSystem := fun _ => .error "No such file or directory"

/-! Claim theorems. -/

/-- C1: for every successful embed call (`encode_text` or `encode_image`),
provided the external model meets its 512-dimensional contract and produced a
nonzero feature vector, the returned vector has exactly 512 elements and its
Euclidean norm is within 0.01 of 1.0, i.e. `validate_embedding` holds of it. -/
theorem encode_unit_norm (svc : EmbeddingService) (enc : Encoder)
    (t : String) (img : List Nat) (e1 e2 : List ℝ)
    (hm : svc.model = some enc)
    (h1 : normSq (enc.encodeTextRaw t) ≠ 0)
    (h2 : normSq (enc.encodeImageRaw img) ≠ 0)
    (he1 : (encode_text svc t).2 = .ok e1)
    (he2 : (encode_image svc img).2 = .ok e2) :
    (e1.length = 512 ∧ validate_embedding e1) ∧
    (e2.length = 512 ∧ validate_embedding e2) := by
  simp only [encode_text, encode_image, hm, Except.ok.injEq] at he1 he2
  subst he1
  subst he2
  refine ⟨⟨?_, validate_normalize _ h1⟩, ⟨?_, validate_normalize _ h2⟩⟩
  · rw [length_normalize, enc.text_dim]
  · rw [length_normalize, enc.image_dim]

/-- Witness for C1 at a concrete loaded service and concrete inputs. -/
theorem encode_unit_norm_witness :
    ((normalize unitRaw).length = 512 ∧ validate_embedding (normalize unitRaw)) ∧
    ((normalize unitRaw).length = 512 ∧ validate_embedding (normalize unitRaw)) :=
  encode_unit_norm loadedSvc constEnc "pepe" [0] (normalize unitRaw)
    (normalize unitRaw) rfl
    (by show normSq unitRaw ≠ 0; rw [normSq_unitRaw]; norm_num)
    (by show normSq unitRaw ≠ 0; rw [normSq_unitRaw]; norm_num)
    rfl rfl

/-- C3: `apply_prompt_template` with `raw` returns the text unchanged, and
`visual` / `content` wrap it in their fixed phrasing; as a total Lean function
of the text alone it is a pure transformation with no state or side effects. -/
theorem template_eqs (text : String) :
    apply_prompt_template text .raw = text ∧
    apply_prompt_template text .visual =
      "A digital art card featuring " ++ text ++
        ", with emphasis on visual style and composition" ∧
    apply_prompt_template text .content =
      "A digital art card depicting " ++ text ++
        ", focused on the subject matter and themes" :=
  ⟨rfl, rfl, rfl⟩

/-! Batch-loop lemmas. -/

theorem batchLoop_counts (svc : EmbeddingService) (fs : FileSystem)
    (ty : BatchType) (items : List BatchItem) :
    (batchLoop svc fs ty items).2.1.length = items.length ∧
    (batchLoop svc fs ty items).2.2.1 + (batchLoop svc fs ty items).2.2.2 =
      items.length := by
  induction items with
  | nil => simp [batchLoop]
  | cons item rest ih =>
      cases h : (batch_item_attempt svc fs ty item).2 with
      | ok emb =>
          simp only [batchLoop, h]
          refine ⟨by simpa using ih.1, ?_⟩
          simp only [List.length_cons]
          omega
      | error e =>
          simp only [batchLoop, h]
          refine ⟨by simpa using ih.1, ?_⟩
          simp only [List.length_cons]
          omega

theorem batchLoop_exclusive (svc : EmbeddingService) (fs : FileSystem)
    (ty : BatchType) (items : List BatchItem) (entry : BatchEmbeddingItem)
    (hm : entry ∈ (batchLoop svc fs ty items).2.1) :
    (entry.success = true → entry.embedding.isSome ∧ entry.error = none) ∧
    (entry.success = false → entry.embedding = none ∧ entry.error.isSome) := by
  induction items with
  | nil => simp [batchLoop] at hm
  | cons item rest ih =>
      cases h : (batch_item_attempt svc fs ty item).2 with
      | ok emb =>
          simp only [batchLoop, h] at hm
          rcases List.mem_cons.mp hm with h1 | h1
          · subst h1
            simp
          · exact ih h1
      | error e =>
          simp only [batchLoop, h] at hm
          rcases List.mem_cons.mp hm with h1 | h1
          · subst h1
            simp
          · exact ih h1

/-- C2: a batch request with N items (N ≤ 100) returns exactly N result
entries, with `successful + failed = N` and `total = N`, whatever each
per-item attempt did (including failing); a per-item failure only yields that
item's inline error entry and the overall request still succeeds. -/
theorem batch_counts (st : AppState) (fs : FileSystem)
    (req : BatchEmbeddingRequest) (now : Nat) (resp : BatchEmbeddingResponse)
    (hlen : req.items.length ≤ 100)
    (h : (embed_batch st fs req now).2.2 = .ok resp) :
    resp.embeddings.length = req.items.length ∧
    resp.successful + resp.failed = req.items.length ∧
    resp.total = req.items.length := by
  simp only [embed_batch, Except.ok.injEq] at h
  subst h
  refine ⟨(batchLoop_counts st.service fs req.type req.items).1,
    (batchLoop_counts st.service fs req.type req.items).2, rfl⟩

/-- Witness for C2: a concrete two-item text batch over the unloaded service
(both items fail, yet two entries come back and the request succeeds). -/
theorem batch_counts_witness :
    (embed_batch unloadedSt emptyFs
        { type := .text, items := [{ text := some "a" }, {}] } 3).2.2 =
      .ok { embeddings :=
              [{ id := none, embedding := none, success := false,
                 error := some "Model not loaded" },
               { id := none, embedding := none, success := false,
                 error := some "Model not loaded" }]
            total := 2, successful := 0, failed := 2 } ∧
    (2 : Nat) = 2 ∧ (0 : Nat) + 2 = 2 ∧ (2 : Nat) = 2 := by
  have h : (embed_batch unloadedSt emptyFs
      { type := .text, items := [{ text := some "a" }, {}] } 3).2.2 =
      .ok { embeddings :=
              [{ id := none, embedding := none, success := false,
                 error := some "Model not loaded" },
               { id := none, embedding := none, success := false,
                 error := some "Model not loaded" }]
            total := 2, successful := 0, failed := 2 } := rfl
  have hc := batch_counts unloadedSt emptyFs
    { type := .text, items := [{ text := some "a" }, {}] } 3 _
    (by norm_num) h
  exact ⟨h, hc.1, hc.2.1, hc.2.2⟩

/-- C6: every entry of the batch response has exactly one of embedding/error
populated: success entries carry an embedding and no error, failure entries
carry an error and no embedding. -/
theorem batch_item_exclusive (st : AppState) (fs : FileSystem)
    (req : BatchEmbeddingRequest) (now : Nat) (resp : BatchEmbeddingResponse)
    (entry : BatchEmbeddingItem)
    (h : (embed_batch st fs req now).2.2 = .ok resp)
    (hm : entry ∈ resp.embeddings) :
    (entry.success = true → entry.embedding.isSome ∧ entry.error = none) ∧
    (entry.success = false → entry.embedding = none ∧ entry.error.isSome) := by
  simp only [embed_batch, Except.ok.injEq] at h
  subst h
  exact batchLoop_exclusive st.service fs req.type req.items entry hm

/-- Witness for C6 at a concrete failing entry. -/
theorem batch_item_exclusive_witness :
    (False → (Option.none (α := List ℝ)).isSome ∧ some "Model not loaded" = none) ∧
    (True → Option.none (α := List ℝ) = none ∧ (some "Model not loaded").isSome) := by
  have h := batch_item_exclusive unloadedSt emptyFs
    { type := .text, items := [{}] } 7
    { embeddings := [{ id := none, embedding := none, success := false,
                       error := some "Model not loaded" }]
      total := 1, successful := 0, failed := 1 }
    { id := none, embedding := none, success := false,
      error := some "Model not loaded" }
    rfl (by simp)
  exact ⟨fun hf => hf.elim, fun _ => (h.2 rfl)⟩

/-- C4: an image upload whose content type is not PNG/JPEG/JPG/GIF is
rejected with HTTP 400 with no file read and no encoder call (empty event
trace) and no state change. -/
theorem image_bad_content_type (st : AppState) (ct : String)
    (bytes : List Nat) (now : Nat) (h : ct ∉ allowed_types) :
    (embed_image st ct bytes now).1 = [] ∧
    (embed_image st ct bytes now).2.1 = st ∧
    (embed_image st ct bytes now).2.2 =
      .error (400, "Unsupported file type: " ++ ct ++
        ". Allowed: PNG, JPG, GIF") := by
  simp [embed_image, h]

/-- Witness for C4 at content type text/plain. -/
theorem image_bad_content_type_witness :
    (embed_image loadedSt "text/plain" [0] 4).1 = [] ∧
    (embed_image loadedSt "text/plain" [0] 4).2.1 = loadedSt ∧
    (embed_image loadedSt "text/plain" [0] 4).2.2 =
      .error (400, "Unsupported file type: " ++ "text/plain" ++
        ". Allowed: PNG, JPG, GIF") :=
  image_bad_content_type loadedSt "text/plain" [0] 4 (by decide)

/-- C5: with the model not loaded, every encode call fails with
`"Model not loaded"` without attempting any encoding (empty event trace),
and the HTTP layer surfaces this as HTTP 500 with an explanatory message
rather than a degraded response. -/
theorem not_ready_fails_fast (svc : EmbeddingService) (t : String)
    (img : List Nat) (texts : List String) (st : AppState)
    (req : TextEmbeddingRequest) (now : Nat)
    (h : svc.model = none) (hst : st.service.model = none) :
    encode_text svc t = ([], .error "Model not loaded") ∧
    encode_image svc img = ([], .error "Model not loaded") ∧
    encode_batch_text svc texts = ([], .error "Model not loaded") ∧
    (embed_text st req now).1 = [] ∧
    (embed_text st req now).2.1 = st ∧
    (embed_text st req now).2.2 =
      .error (500, "Text embedding generation failed: Model not loaded") := by
  refine ⟨by simp [encode_text, h], by simp [encode_image, h],
    by simp [encode_batch_text, h], ?_, ?_, ?_⟩ <;>
    simp [embed_text, encode_text, hst]

/-- Witness for C5 at the concrete unloaded service. -/
theorem not_ready_fails_fast_witness :
    encode_text unloadedSvc "q" = ([], .error "Model not loaded") ∧
    encode_image unloadedSvc [1] = ([], .error "Model not loaded") ∧
    encode_batch_text unloadedSvc ["a", "b"] = ([], .error "Model not loaded") ∧
    (embed_text unloadedSt { text := "q" } 2).1 = [] ∧
    (embed_text unloadedSt { text := "q" } 2).2.1 = unloadedSt ∧
    (embed_text unloadedSt { text := "q" } 2).2.2 =
      .error (500, "Text embedding generation failed: Model not loaded") :=
  not_ready_fails_fast unloadedSvc "q" [1] ["a", "b"] unloadedSt
    { text := "q" } 2 rfl rfl

/-- C10: the health check is read-only: it returns the application state
(counters and service fields) exactly as it received it. -/
theorem health_readonly (st : AppState) : (health_check st).1 = st := rfl

/-- C8: the health check reports degraded / model_loaded false with null
model_name and embedding_dim while the model is not loaded, and healthy /
model_loaded true once it is. -/
theorem health_status (st : AppState) :
    (st.service.model = none →
      (health_check st).2.status = "degraded" ∧
      (health_check st).2.model_loaded = false ∧
      (health_check st).2.model_name = none ∧
      (health_check st).2.embedding_dim = none) ∧
    (∀ enc, st.service.model = some enc →
      (health_check st).2.status = "healthy" ∧
      (health_check st).2.model_loaded = true) := by
  constructor
  · intro h
    simp [health_check, EmbeddingService.is_loaded, h]
  · intro enc h
    simp [health_check, EmbeddingService.is_loaded, h]

/-- Witness for C8 at the concrete unloaded and loaded states. -/
theorem health_status_witness :
    ((health_check unloadedSt).2.status = "degraded" ∧
     (health_check unloadedSt).2.model_loaded = false ∧
     (health_check unloadedSt).2.model_name = none ∧
     (health_check unloadedSt).2.embedding_dim = none) ∧
    ((health_check loadedSt).2.status = "healthy" ∧
     (health_check loadedSt).2.model_loaded = true) :=
  ⟨(health_status unloadedSt).1 rfl, (health_status loadedSt).2 constEnc rfl⟩

/-- C9: a text or image embed request that fails (HTTP 500) leaves
`request_counter` and `last_request_time` unchanged; they move only on a
successful encode. -/
theorem error_preserves_counters (st : AppState) (req : TextEmbeddingRequest)
    (ct : String) (bytes : List Nat) (now : Nat) (p q : Nat × String)
    (h1 : (embed_text st req now).2.2 = .error p)
    (h2 : (embed_image st ct bytes now).2.2 = .error q) :
    ((embed_text st req now).2.1.request_counter = st.request_counter ∧
     (embed_text st req now).2.1.last_request_time = st.last_request_time) ∧
    ((embed_image st ct bytes now).2.1.request_counter = st.request_counter ∧
     (embed_image st ct bytes now).2.1.last_request_time =
       st.last_request_time) := by
  constructor
  · cases h : (encode_text st.service
        (apply_prompt_template req.text req.prompt_template)).2 with
    | ok emb => simp [embed_text, h] at h1
    | error e => simp [embed_text, h]
  · by_cases hct : ct ∈ allowed_types
    · cases h : (encode_image st.service bytes).2 with
      | ok emb => simp [embed_image, hct, h] at h2
      | error e => simp [embed_image, hct, h]
    · simp [embed_image, hct]

/-- Witness for C9: both requests fail on the unloaded service and the
counters stay at their initial values. -/
theorem error_preserves_counters_witness :
    ((embed_text unloadedSt { text := "a" } 6).2.1.request_counter =
        unloadedSt.request_counter ∧
     (embed_text unloadedSt { text := "a" } 6).2.1.last_request_time =
        unloadedSt.last_request_time) ∧
    ((embed_image unloadedSt "image/png" [0] 6).2.1.request_counter =
        unloadedSt.request_counter ∧
     (embed_image unloadedSt "image/png" [0] 6).2.1.last_request_time =
        unloadedSt.last_request_time) :=
  error_preserves_counters unloadedSt { text := "a" } "image/png" [0] 6
    (500, "Text embedding generation failed: Model not loaded")
    (500, "Image embedding generation failed: Model not loaded")
    rfl rfl

/-- Counterexample to C7 as stated: a batch embed request is served (it
returns a well-formed response), yet `request_counter` stays at its previous
value instead of incrementing by exactly one. -/
theorem counter_batch_not_one :
    (embed_batch unloadedSt emptyFs { type := .text, items := [{}] } 9).2.2 =
      .ok { embeddings := [{ id := none, embedding := none, success := false,
                             error := some "Model not loaded" }]
            total := 1, successful := 0, failed := 1 } ∧
    (embed_batch unloadedSt emptyFs
        { type := .text, items := [{}] } 9).2.1.request_counter =
      unloadedSt.request_counter ∧
    unloadedSt.request_counter + 1 ≠ unloadedSt.request_counter :=
  ⟨rfl, rfl, by simp⟩

/-- C7 (amended): successful text and image embeds increment
`request_counter` by exactly one and set `last_request_time`; a batch embed
increments it by the number of successful items (not by one) and sets
`last_request_time` unconditionally. -/
theorem counter_increments (st : AppState) (req : TextEmbeddingRequest)
    (ct : String) (bytes : List Nat) (fs : FileSystem)
    (breq : BatchEmbeddingRequest) (now : Nat)
    (r1 : TextEmbeddingResponse) (r2 : ImageEmbeddingResponse)
    (r3 : BatchEmbeddingResponse)
    (h1 : (embed_text st req now).2.2 = .ok r1)
    (h2 : (embed_image st ct bytes now).2.2 = .ok r2)
    (h3 : (embed_batch st fs breq now).2.2 = .ok r3) :
    ((embed_text st req now).2.1.request_counter = st.request_counter + 1 ∧
     (embed_text st req now).2.1.last_request_time = some now) ∧
    ((embed_image st ct bytes now).2.1.request_counter =
        st.request_counter + 1 ∧
     (embed_image st ct bytes now).2.1.last_request_time = some now) ∧
    ((embed_batch st fs breq now).2.1.request_counter =
        st.request_counter + r3.successful ∧
     (embed_batch st fs breq now).2.1.last_request_time = some now) := by
  refine ⟨?_, ?_, ?_⟩
  · cases h : (encode_text st.service
        (apply_prompt_template req.text req.prompt_template)).2 with
    | error e => simp [embed_text, h] at h1
    | ok emb => simp [embed_text, h]
  · by_cases hct : ct ∈ allowed_types
    · cases h : (encode_image st.service bytes).2 with
      | error e => simp [embed_image, hct, h] at h2
      | ok emb => simp [embed_image, hct, h]
    · simp [embed_image, hct] at h2
  · simp only [embed_batch, Except.ok.injEq] at h3
    subst h3
    simp [embed_batch]

/-- Witness for the amended C7 at a concrete loaded state. -/
theorem counter_increments_witness :
    ((embed_text loadedSt { text := "a" } 5).2.1.request_counter =
        loadedSt.request_counter + 1 ∧
     (embed_text loadedSt { text := "a" } 5).2.1.last_request_time = some 5) ∧
    ((embed_image loadedSt "image/png" [0] 5).2.1.request_counter =
        loadedSt.request_counter + 1 ∧
     (embed_image loadedSt "image/png" [0] 5).2.1.last_request_time =
        some 5) ∧
    ((embed_batch loadedSt emptyFs
        { type := .text, items := [{ text := some "b" }] } 5).2.1.request_counter =
        loadedSt.request_counter + 1 ∧
     (embed_batch loadedSt emptyFs
        { type := .text, items := [{ text := some "b" }] } 5).2.1.last_request_time =
        some 5) :=
  counter_increments loadedSt { text := "a" } "image/png" [0] emptyFs
    { type := .text, items := [{ text := some "b" }] } 5
    { embedding := normalize unitRaw, model := "ViT-B-32",
      processed_text := "a" }
    { embedding := normalize unitRaw, model := "ViT-B-32" }
    { embeddings := [{ id := none, embedding := some (normalize unitRaw),
                       success := true, error := none }],
      total := 1, successful := 1, failed := 0 }
    rfl rfl rfl

end EmbeddingSvc

end
